import Mathlib

/-!
Verification development for the Binance → Polymarket arbitrage bot
(`bot/index.js`).  The live engine is shallowly embedded: prices and
dollar amounts are rationals, timestamps are integers (milliseconds),
HTTP results are `Option` values, and the mutable module-level state
(`btcPrices`, `lastSpikeTime`, `openTrades`) is threaded explicitly.
-/

namespace Bot

/-- Trade direction, the strings `"UP"` / `"DOWN"` in the source. -/
inductive Dir
  | UP
  | DOWN
  deriving DecidableEq

/-- The `CONFIG` object fields relevant to the trading logic
(`bot/index.js`, lines 27–39). -/
structure Config where
  spikeThreshold : ℚ
  tradeSize : ℚ
  maxOpenTrades : ℕ
  holdToResolution : Bool
  takeProfitPct : ℚ
  deriving DecidableEq

/-- Defaults from `bot/index.js`: `SPIKE_THRESHOLD` 0.10 (percent),
`TRADE_SIZE` 100, `MAX_OPEN_TRADES` 3, `HOLD_TO_RESOLUTION` true,
`TAKE_PROFIT_PCT` 10. -/
def defaultConfig : Config :=
  { spikeThreshold := 1/10
    tradeSize := 100
    maxOpenTrades := 3
    holdToResolution := true
    takeProfitPct := 10 }

/-- One element of the `btcPrices` rolling buffer:
`{ price, time: Date.now() }`. -/
structure PricePoint where
  price : ℚ
  time : ℤ
  deriving DecidableEq

/-- The record returned by `detectSpike` on a fire. -/
structure Spike where
  direction : Dir
  changePct : ℚ
  price : ℚ
  oldPrice : ℚ
  deriving DecidableEq

/-- The module-level mutable state read and written by `detectSpike`:
`btcPrices` and `lastSpikeTime` (initially `[]` and `0`). -/
structure SpikeState where
  btcPrices : List PricePoint
  lastSpikeTime : ℤ
  deriving DecidableEq

/-- `let btcPrices = []; let lastSpikeTime = 0;` -/
def initialSpikeState : SpikeState := ⟨[], 0⟩

/-- The buffer after `btcPrices.push({price, time})` and the
10-second-cutoff filter `p.time > Date.now() - 10000`. -/
def spikeBuffer (now : ℤ) (price : ℚ) (s : SpikeState) : List PricePoint :=
  (s.btcPrices ++ [(⟨price, now⟩ : PricePoint)]).filter
    (fun p => decide (now - 10000 < p.time))

/-- `btcPrices.filter((p) => p.time > Date.now() - 2000)`. -/
def recentOf (now : ℤ) (buf : List PricePoint) : List PricePoint :=
  buf.filter (fun p => decide (now - 2000 < p.time))

/-- `btcPrices.filter((p) => p.time > Date.now() - 4000 && p.time < Date.now() - 1500)`. -/
def olderOf (now : ℤ) (buf : List PricePoint) : List PricePoint :=
  buf.filter (fun p => decide (now - 4000 < p.time) && decide (p.time < now - 1500))

/-- `detectSpike(price)` (`bot/index.js`, lines 253–288).  Pushes the
tick, trims the 10-second buffer, requires at least 3 buffered ticks,
compares the newest tick of the last 2 seconds against the oldest tick
aged 1.5–4 seconds, and fires when the absolute percent change reaches
`CONFIG.spikeThreshold`, subject to the 10-second global debounce on
`lastSpikeTime`.  Returns the updated state and the optional spike. -/
def detectSpike (cfg : Config) (now : ℤ) (price : ℚ) (s : SpikeState) :
    SpikeState × Option Spike :=
  let buf := spikeBuffer now price s
  if buf.length < 3 then (⟨buf, s.lastSpikeTime⟩, none)
  else
    match (recentOf now buf).getLast?, (olderOf now buf).head? with
    | some cur, some old =>
      let changePct := (cur.price - old.price) / old.price * 100
      if cfg.spikeThreshold ≤ |changePct| then
        if now - s.lastSpikeTime < 10000 then (⟨buf, s.lastSpikeTime⟩, none)
        else
          (⟨buf, now⟩,
           some ⟨if 0 < changePct then Dir.UP else Dir.DOWN, changePct,
                 cur.price, old.price⟩)
      else (⟨buf, s.lastSpikeTime⟩, none)
    | _, _ => (⟨buf, s.lastSpikeTime⟩, none)

/-- Modelled from the spec: the spike predicate of the Window Tracker
(spec §4.C), which `bot/index.js` does not implement.  A rolling deque
of the ticks from the last `spike_window_sec` (3 s); with `p_now` the
latest and `p_then` the oldest price in the deque, a signal fires
exactly when `|p_now − p_then| ≥ spike_move_usd` (20), with direction
Up if `p_now > p_then` and Down otherwise. -/
def spikeSpecFires (ticks : List PricePoint) (now : ℤ) : Option Dir :=
  let deque := ticks.filter (fun p => decide (now - 3000 ≤ p.time))
  match deque.head?, deque.getLast? with
  | some pThen, some pNow =>
    if 20 ≤ |pNow.price - pThen.price| then
      some (if pThen.price < pNow.price then Dir.UP else Dir.DOWN)
    else none
  | _, _ => none

/-- The market record cached by `findActiveMarket` (`bot/index.js`,
lines 137–145): slug, seconds until `endDate`, and the two CLOB token
ids (`tokens[0]` is Up, `tokens[1]` is Down). -/
structure Market where
  slug : String
  secsLeft : ℚ
  upToken : String
  downToken : String
  deriving DecidableEq

/-- The trade record built by `placeBuyOrder` and stored in
`openTrades`. -/
structure Trade where
  side : Dir
  tokenId : String
  entry : ℚ
  shares : ℤ
  spent : ℚ
  slug : String
  dryRun : Bool
  deriving DecidableEq

/-- Outcome of one `placeBuyOrder` call: the book has already repriced
(the `bestAsk > 0.60` early return, which logs a WARN and drops the
signal), an order record was produced, or the real CLOB order threw. -/
inductive BuyResult
  | repriced (bestAsk : ℚ)
  | placed (t : Trade)
  | orderFailed
  deriving DecidableEq

/-- The best ask extracted in `placeBuyOrder` (`bot/index.js`, lines
160–172): defaults to 0.51, replaced by the minimum ask price when the
`/book` request succeeds and returns a non-empty ask list (the source
sorts ascending and takes index 0).  `none` models a failed request. -/
def bestAskOf (bookAsks : Option (List ℚ)) : ℚ :=
  match bookAsks with
  | none => 51/100
  | some [] => 51/100
  | some (a :: rest) => rest.foldl min a

/-- `placeBuyOrder(side, market)` (`bot/index.js`, lines 156–228).
`dryRun` is `!clobClient`; `orderOk` is whether the real
`createAndPlaceOrder` call succeeds.  Shares are
`Math.floor(CONFIG.tradeSize / bestAsk)`. -/
def placeBuyOrder (cfg : Config) (dryRun orderOk : Bool) (side : Dir)
    (market : Market) (bookAsks : Option (List ℚ)) : BuyResult :=
  let tokenId := if side = Dir.UP then market.upToken else market.downToken
  let bestAsk := bestAskOf bookAsks
  if 60/100 < bestAsk then BuyResult.repriced bestAsk
  else
    let shares : ℤ := ⌊cfg.tradeSize / bestAsk⌋
    if dryRun then
      BuyResult.placed
        ⟨side, tokenId, bestAsk, shares, (shares : ℚ) * bestAsk, market.slug, true⟩
    else if orderOk then
      BuyResult.placed
        ⟨side, tokenId, bestAsk, shares, (shares : ℚ) * bestAsk, market.slug, false⟩
    else BuyResult.orderFailed

/-- `placeSellOrder(trade)` (`bot/index.js`, lines 230–249).
`dryRunTrade` is `!clobClient || trade.dryRun`; `attemptResults i`
models whether the i-th CLOB sell attempt would succeed.  Returns the
boolean result together with the number of CLOB attempts actually
made: the source makes exactly one attempt in live mode and none in
dry-run mode. -/
def placeSellOrder (dryRunTrade : Bool) (attemptResults : ℕ → Bool) : Bool × ℕ :=
  if dryRunTrade then (true, 0)
  else (attemptResults 0, 1)

/-- Modelled from the spec: the sell-failure policy of §4.D, which
`bot/index.js` does not implement — a failed sell is retried up to
three times (500 ms backoff) before giving up. -/
def sellWithRetriesSpec (attemptResults : ℕ → Bool) : Bool × ℕ :=
  if attemptResults 0 then (true, 1)
  else if attemptResults 1 then (true, 2)
  else if attemptResults 2 then (true, 3)
  else if attemptResults 3 then (true, 4)
  else (false, 4)

/-- The bot state mutated by the Binance websocket message handler. -/
structure BotState where
  spikeState : SpikeState
  openTrades : List Trade
  deriving DecidableEq

/-- One Binance websocket message (`ws.on("message", ...)`,
`bot/index.js`, lines 354–414): parse the price (a falsy price, here 0,
is ignored), run `detectSpike`, then check `openTrades.length >=
CONFIG.maxOpenTrades`, `findActiveMarket` (`marketResult`),
`market.secsLeft < 30`, and finally `placeBuyOrder`; a placed trade is
pushed onto `openTrades`.  When `holdToResolution` is false the source
additionally calls `placeSellOrder` and ignores its result, so the
state does not depend on sell outcomes. -/
def wsMessageStep (cfg : Config) (dryRun orderOk : Bool) (now : ℤ) (price : ℚ)
    (marketResult : Option Market) (bookAsks : Option (List ℚ))
    (st : BotState) : BotState :=
  if price = 0 then st
  else
    let res := detectSpike cfg now price st.spikeState
    let st1 : BotState := ⟨res.1, st.openTrades⟩
    match res.2 with
    | none => st1
    | some spike =>
      if cfg.maxOpenTrades ≤ st1.openTrades.length then st1
      else
        match marketResult with
        | none => st1
        | some market =>
          if market.secsLeft < 30 then st1
          else
            match placeBuyOrder cfg dryRun orderOk spike.direction market bookAsks with
            | BuyResult.placed t => ⟨st1.spikeState, st1.openTrades ++ [t]⟩
            | _ => st1

/-- The resolution test in `checkOpenTrades` (`bot/index.js`, lines
308–309): the market counts as resolved exactly when the Up outcome
price satisfies `up > 0.95 || up < 0.05`, with result
`up > 0.5 ? "UP" : "DOWN"`. -/
def resolveOutcome (up : ℚ) : Option Dir :=
  if 95/100 < up ∨ up < 5/100 then
    some (if 1/2 < up then Dir.UP else Dir.DOWN)
  else none

/-- The P&L recorded at resolution (`bot/index.js`, lines 311–313):
win pays `shares * 1.0 - spent - (shares * 1.0 - spent) * 0.02`,
loss pays `-spent`. -/
def tradePnl (t : Trade) (won : Bool) : ℚ :=
  if won then
    (t.shares : ℚ) * 1 - t.spent - ((t.shares : ℚ) * 1 - t.spent) * (2/100)
  else -t.spent

/-- The record pushed onto `tradeHistory` when a market resolves
(`bot/index.js`, line 323). -/
structure ClosedTrade where
  trade : Trade
  result : Dir
  won : Bool
  pnl : ℚ
  deriving DecidableEq

/-- `tradeHistory.push({...trade, result, won, pnl})`. -/
def closeTrade (t : Trade) (result : Dir) : ClosedTrade :=
  let won := t.side = result
  ⟨t, result, decide won, tradePnl t (decide won)⟩

/-- The per-trade resolution lookup of `checkOpenTrades`: the outer
`Option` is the `GET /markets` request (a thrown error or missing
market record leaves the trade untouched via `catch` / `continue`), the
inner `Option` is the parsed Up outcome price (`null` when
`outcomePrices` is absent). -/
def tradeResolution (lookup : String → Option (Option ℚ)) (t : Trade) :
    Option Dir :=
  match lookup t.slug with
  | none => none
  | some none => none
  | some (some up) => resolveOutcome up

/-- `checkOpenTrades()` (`bot/index.js`, lines 292–336).  The source
iterates `openTrades` backwards, splicing out each trade whose market
has resolved and pushing the corresponding closed record onto
`tradeHistory`; so later-indexed trades are closed first.  Returns the
remaining open trades and the new history entries in push order. -/
def checkOpenTrades (lookup : String → Option (Option ℚ)) :
    List Trade → List Trade × List ClosedTrade
  | [] => ([], [])
  | t :: rest =>
    let res := checkOpenTrades lookup rest
    match tradeResolution lookup t with
    | some r => (res.1, res.2 ++ [closeTrade t r])
    | none => (t :: res.1, res.2)

/-- The resolution polling cadence: `setInterval(..., 15000)`
(`bot/index.js`, lines 449–453). -/
def resolutionPollIntervalMs : ℤ := 15000

/-! ### Concrete fixtures used by the witnesses and counterexamples -/

/-- An active market with 200 s to resolution. -/
def M0 : Market := ⟨"btc-updown-5m-1771300000", 200, "tokUp", "tokDown"⟩

/-- The same market observed with exactly 30 s to resolution. -/
def M30 : Market := ⟨"btc-updown-5m-1771300000", 30, "tokUp", "tokDown"⟩

/-- Spike state after two flat ticks: price 100000 at t = 100000 ms and
t = 101000 ms. -/
def noFireState : SpikeState :=
  (detectSpike defaultConfig 101000 100000
    (detectSpike defaultConfig 100000 100000 initialSpikeState).1).1

/-- Spike state after two flat ticks at t = 100000 ms and
t = 100500 ms; a third tick at 100200 two seconds later fires. -/
def fireState : SpikeState :=
  (detectSpike defaultConfig 100500 100000
    (detectSpike defaultConfig 100000 100000 initialSpikeState).1).1

/-- The spike fired by a 100000 → 100200 move (0.2 percent). -/
def sp0 : Spike := ⟨Dir.UP, 1/5, 100200, 100000⟩

/-- The dry-run trade bought against a 0.51 best ask with the default
100 USDC trade size: 196 shares, 99.96 spent. -/
def T196 : Trade :=
  ⟨Dir.UP, "tokUp", 51/100, 196, 9996/100, "btc-updown-5m-1771300000", true⟩

/-- A run of six websocket messages against the single market `M0`:
the 0.2 percent moves at t = 102000 ms and t = 117000 ms both fire
(15 s apart, clearing the 10 s debounce) and both buy into `M0`. -/
def c2run : BotState :=
  wsMessageStep defaultConfig true true 117000 100400 (some M0) (some [51/100])
    (wsMessageStep defaultConfig true true 115000 100200 (some M0) (some [51/100])
      (wsMessageStep defaultConfig true true 114000 100200 (some M0) (some [51/100])
        (wsMessageStep defaultConfig true true 102000 100200 (some M0) (some [51/100])
          (wsMessageStep defaultConfig true true 100500 100000 (some M0) (some [51/100])
            (wsMessageStep defaultConfig true true 100000 100000 (some M0) (some [51/100])
              ⟨initialSpikeState, []⟩)))))

/-- A run of three websocket messages against `M30` (exactly 30 s
left): the spike at t = 102000 ms fires and the trade is accepted. -/
def c7run : BotState :=
  wsMessageStep defaultConfig true true 102000 100200 (some M30) (some [51/100])
    (wsMessageStep defaultConfig true true 100500 100000 (some M30) (some [51/100])
      (wsMessageStep defaultConfig true true 100000 100000 (some M30) (some [51/100])
        ⟨initialSpikeState, []⟩))

/-- A CLOB sell-attempt oracle whose first attempt fails and whose
later attempts would succeed. -/
def failFirst : ℕ → Bool := fun i => decide (0 < i)

/-! ### Helper lemmas -/

/-- Input-output characterization of the backward splice loop in
`checkOpenTrades`: unresolved trades are kept in order, resolved
trades are closed and appended to the history in reverse list order. -/
theorem checkOpenTrades_eq (lookup : String → Option (Option ℚ))
    (trades : List Trade) :
    checkOpenTrades lookup trades =
      (trades.filter (fun t => (tradeResolution lookup t).isNone),
       (trades.filterMap
          (fun t => (tradeResolution lookup t).map (closeTrade t))).reverse) := by
  induction trades with
  | nil => rfl
  | cons t rest ih =>
    simp only [checkOpenTrades, ih, List.filter_cons, List.filterMap_cons]
    cases h : tradeResolution lookup t
    · simp [h]
    · simp [h]

/-! ### Claim theorems -/

/-- C3: when the best ask on the signal side exceeds 0.60,
`placeBuyOrder` returns the repriced warning and no order is placed;
the websocket handler then leaves `openTrades` unchanged, so no
position is created and the signal is dropped. -/
theorem placeBuyOrder_repriced_rejects (cfg : Config) (dryRun orderOk : Bool)
    (side : Dir) (m : Market) (bookAsks : Option (List ℚ))
    (h : 60/100 < bestAskOf bookAsks) :
    placeBuyOrder cfg dryRun orderOk side m bookAsks
      = BuyResult.repriced (bestAskOf bookAsks) ∧
    ∀ (now : ℤ) (price : ℚ) (st : BotState),
      (wsMessageStep cfg dryRun orderOk now price (some m) bookAsks st).openTrades
        = st.openTrades := by
  have hrep : ∀ sd : Dir, placeBuyOrder cfg dryRun orderOk sd m bookAsks
      = BuyResult.repriced (bestAskOf bookAsks) := by
    intro sd
    simp only [placeBuyOrder, if_pos h]
  refine ⟨hrep side, fun now price st => ?_⟩
  by_cases hp : price = 0
  · simp only [wsMessageStep, if_pos hp]
  · simp only [wsMessageStep, if_neg hp]
    rcases hsp : (detectSpike cfg now price st.spikeState).2 with _ | sp
    · simp only [hsp]
    · simp only [hsp]
      by_cases hmax : cfg.maxOpenTrades ≤ st.openTrades.length
      · simp only [if_pos hmax]
      · simp only [if_neg hmax]
        by_cases hsec : m.secsLeft < 30
        · simp only [if_pos hsec]
        · simp only [if_neg hsec, hrep sp.direction]

/-- C4: every placed buy order buys exactly
`Math.floor(CONFIG.tradeSize / bestAsk)` shares at the best ask, and
records `spent = shares * bestAsk`. -/
theorem placeBuyOrder_sizing (cfg : Config) (dryRun orderOk : Bool) (side : Dir)
    (m : Market) (bookAsks : Option (List ℚ)) (t : Trade)
    (h : placeBuyOrder cfg dryRun orderOk side m bookAsks = BuyResult.placed t) :
    t.shares = ⌊cfg.tradeSize / bestAskOf bookAsks⌋ ∧
    t.entry = bestAskOf bookAsks ∧
    t.spent = (t.shares : ℚ) * t.entry := by
  simp only [placeBuyOrder] at h
  split at h
  · exact absurd h (by simp)
  · split at h
    · simp only [BuyResult.placed.injEq] at h
      subst h
      exact ⟨rfl, rfl, rfl⟩
    · split at h
      · simp only [BuyResult.placed.injEq] at h
        subst h
        exact ⟨rfl, rfl, rfl⟩
      · exact absurd h (by simp)

/-- C5: resolution P&L; a trade whose recorded cost is
`shares * entry` receives `shares * (1 - entry) * (1 - 0.02)` when the
market resolves on its side and `-(shares * entry)` when it resolves
against it, so the 2 percent fee is charged only on gains. -/
theorem resolution_pnl (t : Trade) (r : Dir)
    (h : t.spent = (t.shares : ℚ) * t.entry) :
    (t.side = r →
      (closeTrade t r).pnl = (t.shares : ℚ) * (1 - t.entry) * (1 - 2/100)) ∧
    (t.side ≠ r →
      (closeTrade t r).pnl = -((t.shares : ℚ) * t.entry)) := by
  constructor
  · intro hr
    simp [closeTrade, tradePnl, hr, h]
    ring
  · intro hr
    simp [closeTrade, tradePnl, hr, h]

/-- C8 (amended): `placeSellOrder` makes exactly one CLOB attempt in
live mode, returning that attempt's outcome with no retry, and makes
no attempt at all for dry-run trades. -/
theorem placeSellOrder_single_attempt (attemptResults : ℕ → Bool) :
    placeSellOrder false attemptResults = (attemptResults 0, 1) ∧
    placeSellOrder true attemptResults = (true, 0) :=
  ⟨rfl, rfl⟩

/-- C9: when the order-book request fails (`none`) or returns no asks,
`placeBuyOrder` proceeds with the hard-coded default best ask 0.51,
sizes the position against it, and places (or dry-run simulates) the
order at that price. -/
theorem book_failure_default_ask (cfg : Config) (dryRun orderOk : Bool)
    (side : Dir) (m : Market) (bookAsks : Option (List ℚ))
    (h : bookAsks = none ∨ bookAsks = some []) :
    bestAskOf bookAsks = 51/100 ∧
    (dryRun = true ∨ orderOk = true →
      placeBuyOrder cfg dryRun orderOk side m bookAsks =
        BuyResult.placed
          ⟨side, if side = Dir.UP then m.upToken else m.downToken, 51/100,
           ⌊cfg.tradeSize / (51/100)⌋,
           ((⌊cfg.tradeSize / (51/100)⌋ : ℤ) : ℚ) * (51/100), m.slug, dryRun⟩) := by
  have hask : bestAskOf bookAsks = 51/100 := by
    rcases h with h | h <;> subst h <;> rfl
  refine ⟨hask, fun hok => ?_⟩
  simp only [placeBuyOrder, hask]
  rw [if_neg (by norm_num)]
  cases dryRun
  · cases orderOk
    · rcases hok with h | h <;> simp at h
    · simp
  · simp

/-- C10: conservation of trades in `checkOpenTrades`; a trade is
removed from the open list exactly when its market lookup reports a
resolved price, every removed trade is appended to the history exactly
once as a closed record, and when nothing resolves (in particular on
lookup failures) both lists are left unchanged. -/
theorem checkOpenTrades_conservation (lookup : String → Option (Option ℚ))
    (trades : List Trade) :
    (checkOpenTrades lookup trades).1
      = trades.filter (fun t => (tradeResolution lookup t).isNone) ∧
    (checkOpenTrades lookup trades).2
      = (trades.filterMap
          (fun t => (tradeResolution lookup t).map (closeTrade t))).reverse ∧
    ((∀ t ∈ trades, tradeResolution lookup t = none) →
      checkOpenTrades lookup trades = (trades, [])) := by
  refine ⟨by rw [checkOpenTrades_eq], by rw [checkOpenTrades_eq], fun hall => ?_⟩
  rw [checkOpenTrades_eq]
  have h1 : trades.filter (fun t => (tradeResolution lookup t).isNone) = trades :=
    List.filter_eq_self.mpr (fun t ht => by simp [hall t ht])
  have h2 : trades.filterMap
      (fun t => (tradeResolution lookup t).map (closeTrade t)) = [] :=
    List.filterMap_eq_nil_iff.mpr (fun t ht => by simp [hall t ht])
  simp [h1, h2]

/-- C1 (amended): `detectSpike` fires exactly when the trimmed
10-second buffer holds at least 3 ticks, both the 2-second recent
bucket and the 1.5–4-second older bucket are non-empty, the percent
change from the oldest older-bucket price to the newest recent-bucket
price is at least `CONFIG.spikeThreshold` in absolute value, and at
least 10 s have passed since the last fire; the direction is Up for a
positive change and Down otherwise. -/
theorem detectSpike_percent_characterization (cfg : Config) (now : ℤ) (price : ℚ)
    (s : SpikeState) :
    ((detectSpike cfg now price s).2.isSome ↔
      (3 ≤ (spikeBuffer now price s).length ∧
       ∃ cur old,
         (recentOf now (spikeBuffer now price s)).getLast? = some cur ∧
         (olderOf now (spikeBuffer now price s)).head? = some old ∧
         cfg.spikeThreshold ≤ |(cur.price - old.price) / old.price * 100| ∧
         10000 ≤ now - s.lastSpikeTime)) ∧
    (∀ sp, (detectSpike cfg now price s).2 = some sp →
      ∃ cur old,
        (recentOf now (spikeBuffer now price s)).getLast? = some cur ∧
        (olderOf now (spikeBuffer now price s)).head? = some old ∧
        sp.changePct = (cur.price - old.price) / old.price * 100 ∧
        sp.price = cur.price ∧ sp.oldPrice = old.price ∧
        sp.direction = (if 0 < sp.changePct then Dir.UP else Dir.DOWN)) := by
  constructor
  · simp only [detectSpike]
    split
    · next h3 =>
      simp only [Option.isSome_none, Bool.false_eq_true, false_iff]
      rintro ⟨h3', -⟩
      omega
    · next h3 =>
      split
      · next cur old hr ho =>
        split
        · next hth =>
          split
          · next hdb =>
            simp only [Option.isSome_none, Bool.false_eq_true, false_iff]
            rintro ⟨-, -, -, -, -, -, hdb'⟩
            omega
          · next hdb =>
            simp only [Option.isSome_some, true_iff]
            exact ⟨by omega, cur, old, hr, ho, hth, by omega⟩
        · next hth =>
          simp only [Option.isSome_none, Bool.false_eq_true, false_iff]
          rintro ⟨-, cur', old', hc, ho', hth', -⟩
          rw [hr] at hc
          rw [ho] at ho'
          injection hc with hc
          injection ho' with ho'
          subst hc
          subst ho'
          exact hth hth'
      · next hne =>
        simp only [Option.isSome_none, Bool.false_eq_true, false_iff]
        rintro ⟨-, cur', old', hc, ho', -, -⟩
        exact hne cur' old' hc ho'
  · intro sp hsp
    simp only [detectSpike] at hsp
    split at hsp
    · exact absurd hsp (by simp)
    · next h3 =>
      split at hsp
      · next cur old hr ho =>
        split at hsp
        · next hth =>
          split at hsp
          · exact absurd hsp (by simp)
          · next hdb =>
            simp only [Option.some.injEq] at hsp
            subst hsp
            exact ⟨cur, old, hr, ho, rfl, rfl, rfl, rfl⟩
        · exact absurd hsp (by simp)
      · exact absurd hsp (by simp)

/-- C2 (amended): the only inter-signal constraint is the global
debounce; a fire requires at least 10 s since `lastSpikeTime`, resets
`lastSpikeTime` to the fire instant, and a non-fire leaves it
untouched, so consecutive fires in any run are at least 10 s apart.
There is no per-window once-only flag (see the counterexample). -/
theorem detectSpike_global_debounce (cfg : Config) (now : ℤ) (price : ℚ)
    (s : SpikeState) :
    (∀ sp, (detectSpike cfg now price s).2 = some sp →
      10000 ≤ now - s.lastSpikeTime ∧
      ((detectSpike cfg now price s).1).lastSpikeTime = now) ∧
    ((detectSpike cfg now price s).2 = none →
      ((detectSpike cfg now price s).1).lastSpikeTime = s.lastSpikeTime) := by
  constructor
  · simp only [detectSpike]
    split
    · intro sp hsp
      exact absurd hsp (by simp)
    · split
      · split
        · split
          · intro sp hsp
            exact absurd hsp (by simp)
          · next hdb =>
            intro sp hsp
            exact ⟨by omega, rfl⟩
        · intro sp hsp
          exact absurd hsp (by simp)
      · intro sp hsp
        exact absurd hsp (by simp)
  · simp only [detectSpike]
    split
    · intro hnone
      rfl
    · split
      · split
        · split
          · intro hnone
            rfl
          · intro hnone
            exact absurd hnone (by simp)
        · intro hnone
          rfl
      · intro hnone
        rfl

/-- C6 (amended): the resolution poll runs every 15 s and a market
counts as resolved exactly when the Up outcome price is strictly above
0.95 or strictly below 0.05 (at exactly 0.95 or 0.05 the trade stays
open); the outcome is Up when the price is above 0.5 and Down
otherwise, and a trade is kept open exactly while its lookup does not
report a resolved price. -/
theorem resolution_detection_strict :
    (∀ up : ℚ, (resolveOutcome up).isSome ↔ (95/100 < up ∨ up < 5/100)) ∧
    (∀ up d, resolveOutcome up = some d →
      d = if 1/2 < up then Dir.UP else Dir.DOWN) ∧
    resolutionPollIntervalMs = 15000 ∧
    (∀ (lookup : String → Option (Option ℚ)) (trades : List Trade) (t : Trade),
      t ∈ (checkOpenTrades lookup trades).1 ↔
        t ∈ trades ∧ (tradeResolution lookup t).isNone) := by
  refine ⟨fun up => ?_, fun up d h => ?_, rfl, fun lookup trades t => ?_⟩
  · unfold resolveOutcome
    split
    · next hcond => simp [hcond]
    · next hcond => simp [hcond]
  · unfold resolveOutcome at h
    split at h
    · simpa using h.symm
    · exact absurd h (by simp)
  · rw [checkOpenTrades_eq]
    simp [List.mem_filter]

/-- C7 (amended): the websocket handler rejects an entry only when the
cached market's remaining time is strictly below 30 s; a signal with
exactly 30 s remaining passes the guard and the placed trade is
appended to `openTrades`. -/
theorem ws_secsLeft_guard (cfg : Config) (dryRun orderOk : Bool) (now : ℤ)
    (price : ℚ) (m : Market) (bookAsks : Option (List ℚ)) (st : BotState) :
    (m.secsLeft < 30 →
      (wsMessageStep cfg dryRun orderOk now price (some m) bookAsks st).openTrades
        = st.openTrades) ∧
    (∀ (sp : Spike) (t : Trade), price ≠ 0 →
      (detectSpike cfg now price st.spikeState).2 = some sp →
      st.openTrades.length < cfg.maxOpenTrades →
      30 ≤ m.secsLeft →
      placeBuyOrder cfg dryRun orderOk sp.direction m bookAsks
        = BuyResult.placed t →
      (wsMessageStep cfg dryRun orderOk now price (some m) bookAsks st).openTrades
        = st.openTrades ++ [t]) := by
  constructor
  · intro hsec
    by_cases hp : price = 0
    · simp only [wsMessageStep, if_pos hp]
    · simp only [wsMessageStep, if_neg hp]
      rcases hsp : (detectSpike cfg now price st.spikeState).2 with _ | sp
      · simp only [hsp]
      · simp only [hsp]
        by_cases hmax : cfg.maxOpenTrades ≤ st.openTrades.length
        · simp only [if_pos hmax]
        · simp only [if_neg hmax, if_pos hsec]
  · intro sp t hp hsp hmax hsec hplace
    have hmax' : ¬ cfg.maxOpenTrades ≤ st.openTrades.length := by omega
    simp only [wsMessageStep, if_neg hp, hsp, if_neg hmax',
      if_neg (not_lt.mpr hsec), hplace]

/-! ### Counterexamples -/

/-- C1 counterexample: after ticks 100000 at t = 100000 ms, 100000 at
t = 101000 ms and 100020 at t = 102500 ms, the newest and oldest
prices of the last 3 s differ by exactly 20 dollars, so the spec's
dollar-move predicate fires Up, yet `detectSpike` stays silent: the
move is only 0.02 percent, far below the code's 0.10 percent
threshold. -/
theorem spike_dollar_move_counterexample :
    (detectSpike defaultConfig 102500 100020 noFireState).2 = none ∧
    spikeSpecFires
      ((detectSpike defaultConfig 102500 100020 noFireState).1).btcPrices 102500
      = some Dir.UP ∧
    (20 : ℚ) ≤ |(100020 : ℚ) - 100000| := by
  refine ⟨?_, ?_, by norm_num⟩ <;>
    norm_num [detectSpike, spikeBuffer, recentOf, olderOf, noFireState,
      initialSpikeState, defaultConfig, spikeSpecFires, List.filter,
      abs_of_nonneg]

/-- C2 counterexample: in a six-message run against the single window
`M0`, spikes at t = 102000 ms and t = 117000 ms (15 s apart, clearing
the 10 s debounce) each fire and each buys into `M0`, so one window
receives two entry signals and two trades over its lifetime. -/
theorem same_window_two_signals_counterexample :
    c2run.openTrades.length = 2 ∧
    ∀ t ∈ c2run.openTrades, t.slug = M0.slug := by
  norm_num [c2run, wsMessageStep, detectSpike, spikeBuffer, recentOf, olderOf,
    initialSpikeState, defaultConfig, M0, placeBuyOrder, bestAskOf, List.filter,
    abs_of_nonneg]

/-- C6 counterexample: at an Up price of exactly 0.95 (or 0.05) the
claim's inclusive threshold says the market is resolved, but the
code's strict comparison does not close the trade: `checkOpenTrades`
leaves the open list and the history unchanged. -/
theorem resolution_threshold_boundary_counterexample :
    resolveOutcome (95/100) = none ∧
    resolveOutcome (5/100) = none ∧
    checkOpenTrades (fun _ => some (some (95/100))) [T196] = ([T196], []) := by
  refine ⟨?_, ?_, ?_⟩ <;>
    norm_num [resolveOutcome, checkOpenTrades, tradeResolution]

/-- C7 counterexample: a spike arriving when the cached market shows
exactly 30 s remaining is accepted — the guard `secsLeft < 30` does
not reject it and a trade is placed — whereas the claim says it is
rejected. -/
theorem min_time_boundary_counterexample :
    M30.secsLeft = 30 ∧ c7run.openTrades.length = 1 := by
  constructor
  · norm_num [M30]
  · norm_num [c7run, wsMessageStep, detectSpike, spikeBuffer, recentOf, olderOf,
      initialSpikeState, defaultConfig, M30, placeBuyOrder, bestAskOf,
      List.filter, abs_of_nonneg]

/-- C8 counterexample: with a sell oracle that fails on the first
attempt and would succeed on any retry, `placeSellOrder` stops after a
single attempt and reports failure, while the spec's three-retry
policy would have succeeded on the second attempt. -/
theorem sell_retry_counterexample :
    placeSellOrder false failFirst = (false, 1) ∧
    sellWithRetriesSpec failFirst = (true, 2) := by
  constructor <;> rfl

/-! ### Witnesses -/

/-- Witness for C1: the characterization instantiated on a firing
trace — a 0.2 percent move two seconds after two flat ticks. -/
theorem detectSpike_percent_characterization_witness :
    3 ≤ (spikeBuffer 102000 100200 fireState).length ∧
    ∃ cur old,
      (recentOf 102000 (spikeBuffer 102000 100200 fireState)).getLast? = some cur ∧
      (olderOf 102000 (spikeBuffer 102000 100200 fireState)).head? = some old ∧
      defaultConfig.spikeThreshold ≤ |(cur.price - old.price) / old.price * 100| ∧
      10000 ≤ (102000 : ℤ) - fireState.lastSpikeTime :=
  (detectSpike_percent_characterization defaultConfig 102000 100200 fireState).1.mp
    (by norm_num [detectSpike, spikeBuffer, recentOf, olderOf, fireState,
      initialSpikeState, defaultConfig, List.filter, abs_of_nonneg])

/-- Witness for C2: the debounce theorem instantiated on the same
firing trace; the fire is at least 10 s after the previous one and
stamps `lastSpikeTime`. -/
theorem detectSpike_global_debounce_witness :
    10000 ≤ (102000 : ℤ) - fireState.lastSpikeTime ∧
    ((detectSpike defaultConfig 102000 100200 fireState).1).lastSpikeTime
      = 102000 :=
  (detectSpike_global_debounce defaultConfig 102000 100200 fireState).1 sp0
    (by norm_num [detectSpike, spikeBuffer, recentOf, olderOf, fireState,
      initialSpikeState, defaultConfig, sp0, List.filter, abs_of_nonneg])

/-- Witness for C3: a 0.62 best ask (above the 0.60 cap) yields the
repriced rejection, exactly the claim's example. -/
theorem placeBuyOrder_repriced_rejects_witness :
    placeBuyOrder defaultConfig true true Dir.UP M0 (some [62/100])
      = BuyResult.repriced (bestAskOf (some [62/100])) ∧
    bestAskOf (some [62/100]) = 62/100 :=
  ⟨(placeBuyOrder_repriced_rejects defaultConfig true true Dir.UP M0
      (some [62/100]) (by norm_num [bestAskOf])).1,
   by norm_num [bestAskOf]⟩

/-- Witness for C4: with the default 100 USDC trade size and a 0.51
best ask the bot buys exactly 196 shares at a cost of 99.96. -/
theorem placeBuyOrder_sizing_witness :
    T196.shares = ⌊defaultConfig.tradeSize / bestAskOf (some [51/100])⌋ ∧
    T196.shares = 196 ∧ T196.spent = 9996/100 :=
  ⟨(placeBuyOrder_sizing defaultConfig true true Dir.UP M0 (some [51/100]) T196
      (by norm_num [placeBuyOrder, bestAskOf, defaultConfig, M0, T196])).1,
   by norm_num [T196], by norm_num [T196]⟩

/-- Witness for C5: the 196-share position bought at 0.51 pays
196 × 0.49 × 0.98 = 94.1192 on a favourable resolution and loses the
full 99.96 cost on an unfavourable one. -/
theorem resolution_pnl_witness :
    (closeTrade T196 Dir.UP).pnl = 1176490/12500 ∧
    (closeTrade T196 Dir.DOWN).pnl = -(9996/100) := by
  constructor
  · rw [(resolution_pnl T196 Dir.UP (by norm_num [T196])).1 rfl]
    norm_num [T196]
  · rw [(resolution_pnl T196 Dir.DOWN (by norm_num [T196])).2 (by simp [T196])]
    norm_num [T196]

/-- Witness for C6: an Up price of 0.96 is detected as resolved, and
a failing lookup keeps a concrete trade open. -/
theorem resolution_detection_strict_witness :
    (resolveOutcome (96/100)).isSome ∧
    (T196 ∈ (checkOpenTrades (fun _ => none) [T196]).1 ↔
      T196 ∈ [T196] ∧ (tradeResolution (fun _ => none) T196).isNone) :=
  ⟨(resolution_detection_strict.1 (96/100)).mpr (by norm_num),
   resolution_detection_strict.2.2.2 (fun _ => none) [T196] T196⟩

/-- Witness for C7: the guard theorem instantiated at a market with
exactly 30 s remaining — the trade is appended. -/
theorem ws_secsLeft_guard_witness :
    (wsMessageStep defaultConfig true true 102000 100200 (some M30)
      (some [51/100]) ⟨fireState, []⟩).openTrades = [] ++ [T196] :=
  (ws_secsLeft_guard defaultConfig true true 102000 100200 M30 (some [51/100])
      ⟨fireState, []⟩).2 sp0 T196
    (by norm_num)
    (by norm_num [detectSpike, spikeBuffer, recentOf, olderOf, fireState,
      initialSpikeState, defaultConfig, sp0, List.filter, abs_of_nonneg])
    (by norm_num [defaultConfig])
    (by norm_num [M30])
    (by norm_num [placeBuyOrder, bestAskOf, defaultConfig, M30, T196, sp0])

/-- Witness for C8: the single-attempt theorem instantiated on the
fail-first oracle. -/
theorem placeSellOrder_single_attempt_witness :
    placeSellOrder false failFirst = (failFirst 0, 1) ∧
    placeSellOrder true failFirst = (true, 0) :=
  placeSellOrder_single_attempt failFirst

/-- Witness for C9: a failed book request still buys 196 shares at the
0.51 default with the default config. -/
theorem book_failure_default_ask_witness :
    bestAskOf (none : Option (List ℚ)) = 51/100 ∧
    placeBuyOrder defaultConfig true true Dir.UP M0 none =
      BuyResult.placed
        ⟨Dir.UP, if Dir.UP = Dir.UP then M0.upToken else M0.downToken, 51/100,
         ⌊defaultConfig.tradeSize / (51/100)⌋,
         ((⌊defaultConfig.tradeSize / (51/100)⌋ : ℤ) : ℚ) * (51/100),
         M0.slug, true⟩ ∧
    (⌊defaultConfig.tradeSize / ((51 : ℚ)/100)⌋ : ℤ) = 196 := by
  have h := book_failure_default_ask defaultConfig true true Dir.UP M0 none
    (Or.inl rfl)
  exact ⟨h.1, h.2 (Or.inl rfl), by norm_num [defaultConfig]⟩

/-- Witness for C10: with a lookup that fails on every slug, a
singleton open list is returned unchanged with no history entry. -/
theorem checkOpenTrades_conservation_witness :
    checkOpenTrades (fun _ => none) [T196] = ([T196], []) :=
  (checkOpenTrades_conservation (fun _ => none) [T196]).2.2
    (fun _ _ => rfl)

end Bot
